import Mathlib

/-!
# logkafka: tail watcher, rotate handler, startup configuration, coordination client

A shallow embedding of the parts of `tail_watcher.cc`, `tail_watcher.h`,
`rotate_handler.cc`, `config.cc` and `zookeeper.cc` that decide how a watched file is
(re)opened, where reading starts, when a rotation is detected, how a watcher stops and
reports its progress, which startup configurations are accepted and what the coordination
client keeps in its caches.

Pointers become references into an explicit store, calls into the C library
and into classes whose sources are not part of the tree take their outcome from
an environment record, and calls whose only effect is on another object are
recorded in a trace.
-/

namespace logkafka

/-! ## Machine integers -/

/-- Value of a wider integer after conversion to a C `int` (32 bits, two's complement). -/
def toInt32 (x : Int) : Int := (x + 2147483648) % 4294967296 - 2147483648

/-- Value of an `unsigned long` after conversion to `unsigned int` (32 bits). -/
def toUInt32 (x : Nat) : Nat := x % 4294967296

/-- Value of a signed 64-bit integer after conversion to `unsigned long` (64 bits). -/
def toULong (x : Int) : Nat := (x % 18446744073709551616).toNat

/-! ## C library objects -/

/-- A stdio stream: the descriptor it wraps and its current position (what `ftell` reports). -/
structure FILE where
  fd : Nat
  pos : Int
  deriving DecidableEq, Repr

/-- The two fields of `struct stat` the program reads. -/
structure Stat where
  st_ino : Nat
  st_size : Int
  deriving DecidableEq, Repr

/-- The call `fseek(file, offset, SEEK_SET)`: a negative offset is refused and the
position stays where it was (the program ignores the return value). -/
def fseek (file : FILE) (offset : Int) : FILE :=
  if offset < 0 then file else { file with pos := offset }

/-- The call `ftell(file)`. -/
def ftell (file : FILE) : Int := file.pos

/-- A `struct timeval`. -/
structure timeval where
  tv_sec : Int
  tv_usec : Int
  deriving DecidableEq, Repr

/-! ## Position entries -/

/-- Modelled from the spec: the `PositionEntry` class (`position_entry.h` is not among the
sources): "an abstract record of `(inode, byte_offset)` for a given watched path". -/
structure PositionEntry where
  inode : Nat
  pos : Int
  deriving DecidableEq, Repr

/-- Modelled from the spec: `PositionEntry::readInode`, the inode of the last checkpoint. -/
def PositionEntry.readInode (pe : PositionEntry) : Nat := pe.inode

/-- Modelled from the spec: `PositionEntry::readPos`, the offset of the last checkpoint. -/
def PositionEntry.readPos (pe : PositionEntry) : Int := pe.pos

/-- Modelled from the spec: `PositionEntry::update`, "`update(path, inode, offset)` sets both". -/
def PositionEntry.update (_pe : PositionEntry) (inode : Nat) (pos : Int) : PositionEntry :=
  { inode := inode, pos := pos }

/-- Modelled from the spec: `PositionEntry::updatePos`, "updates only the offset". -/
def PositionEntry.updatePos (pe : PositionEntry) (pos : Int) : PositionEntry :=
  { pe with pos := pos }

/-- A `PositionEntry *`. -/
abbrev PeRef := Nat

/-- The position entries that pointers refer to. -/
abbrev Store := PeRef → PositionEntry

/-- Assignment through a `PositionEntry *`. -/
def Store.write (s : Store) (p : PeRef) (v : PositionEntry) : Store :=
  fun q => if q = p then v else s q

/-! ## I/O reader -/

/-- Modelled from the spec: the `IOHandler` class (`io_handler.h` is not among the sources):
"an open file handle, the associated `PositionEntry`, a per-read maximum line count and
per-line maximum byte count". `m_file` is `none` once the reader has been closed. -/
structure IOHandler where
  m_file : Option FILE
  m_position_entry : PeRef
  m_max_line_at_once : Nat
  m_line_max_bytes : Nat
  deriving DecidableEq, Repr

/-- Modelled from the spec: the reader `IOHandler::init(file, pe, max_line_at_once,
line_max_bytes, output, receive)` sets up, bound to the handle and the position entry it is
given. Whether `init` reports success is taken from the environment. -/
def IOHandler.init (file : FILE) (pe : PeRef) (max_line_at_once line_max_bytes : Nat) :
    IOHandler :=
  { m_file := some file, m_position_entry := pe,
    m_max_line_at_once := max_line_at_once, m_line_max_bytes := line_max_bytes }

/-! ## Tail watcher -/

/-- The members of `TailWatcher` that `onRotate`, `isActive` and `stop` use. -/
structure TailWatcher where
  m_manager : Nat
  m_path_pattern : String
  m_path : String
  m_timer_trigger : Option Nat
  m_stat_trigger : Option Nat
  m_io_handler : Option IOHandler
  m_position_entry : PeRef
  m_read_from_head : Bool
  m_max_line_at_once : Nat
  m_line_max_bytes : Nat
  m_stat_silent_max_ms : Nat
  deriving DecidableEq, Repr

/-- Calls that leave the watcher for another object. -/
inductive Event where
  /-- The call of `IOHandler::close()` on a reader. -/
  | ioClose (h : IOHandler)
  /-- The statement `delete` applied to a reader. -/
  | ioDelete (h : IOHandler)
  /-- The call `(*updateWatcher)(manager, path_pattern, path, position_entry)`. -/
  | updateWatcher (manager : Nat) (path_pattern path : String) (pe : PeRef)
  /-- The call of `TimerWatcher::stop()` on a timer trigger. -/
  | timerStop (t : Nat)
  /-- The call of `StatWatcher::stop()` on a stat trigger. -/
  | statStop (t : Nat)
  /-- The call of `IOHandler::onNotify` on a reader. -/
  | ioNotify (h : IOHandler)
  deriving DecidableEq, Repr

/-- A watcher together with the position entries it can reach and the calls made so far. -/
structure World where
  tw : TailWatcher
  store : Store
  trace : List Event

/-- What the environment answers during one call of `onRotate`. -/
structure RotateEnv where
  /-- What `fstat(fileno(file), &buf)` stores in `buf`. -/
  buf : Stat
  /-- What `IOHandler::init` returns. -/
  initRes : Bool
  deriving DecidableEq, Repr

/-- The position entry the watcher points to: the checkpoint. -/
def World.checkpoint (w : World) : PositionEntry := w.store w.tw.m_position_entry

/-- The function `TailWatcher::onRotate(arg, file)`. The second component is the handle that
was passed in, as the call leaves it. -/
def TailWatcher.onRotate (env : RotateEnv) (w : World) (file : Option FILE) :
    World × Option FILE :=
  let tw := w.tw
  let pe := tw.m_position_entry
  let max_line_at_once := toUInt32 tw.m_max_line_at_once
  let line_max_bytes := toUInt32 tw.m_line_max_bytes
  match tw.m_io_handler with
  | none =>
    match file with
    | none => (w, none)
    | some file =>
      let fsize := env.buf.st_size
      let inode := env.buf.st_ino
      let last_inode := (w.store pe).readInode
      let ps : Int × Store :=
        if inode = last_inode then
          (toInt32 (w.store pe).readPos, w.store)
        else if inode ≠ 0 then
          (0, w.store.write pe ((w.store pe).update inode 0))
        else
          let pos := toInt32 (if tw.m_read_from_head then 0 else fsize)
          (pos, w.store.write pe ((w.store pe).update inode pos))
      let file := fseek file ps.1
      let io_handler := IOHandler.init file pe max_line_at_once line_max_bytes
      if env.initRes then
        ({ tw := { tw with m_io_handler := some io_handler }, store := ps.2, trace := w.trace },
          some file)
      else
        ({ tw := { tw with m_io_handler := none }, store := ps.2,
           trace := w.trace ++ [Event.ioDelete io_handler] }, some file)
  | some cur =>
    match file with
    | none => (w, none)
    | some file =>
      let fsize := env.buf.st_size
      let inode := env.buf.st_ino
      let last_inode := (w.store pe).readInode
      if inode = last_inode then
        let store := w.store.write pe ((w.store pe).updatePos fsize)
        let io_handler := IOHandler.init file pe max_line_at_once line_max_bytes
        if env.initRes then
          ({ tw := { tw with m_io_handler := some io_handler }, store := store,
             trace := w.trace ++ [Event.ioClose cur, Event.ioDelete cur] }, some file)
        else
          ({ tw := tw, store := store, trace := w.trace ++ [Event.ioDelete io_handler] },
            some file)
      else if cur.m_file = none then
        let curpos := ftell file
        let store := w.store.write pe ((w.store pe).update inode curpos)
        let io_handler := IOHandler.init file pe max_line_at_once line_max_bytes
        if env.initRes then
          ({ tw := { tw with m_io_handler := some io_handler }, store := store,
             trace := w.trace ++ [Event.ioDelete cur] }, some file)
        else
          ({ tw := tw, store := store, trace := w.trace ++ [Event.ioDelete io_handler] },
            some file)
      else
        ({ tw := tw, store := w.store,
           trace := w.trace ++
             [Event.updateWatcher tw.m_manager tw.m_path_pattern tw.m_path tw.m_position_entry] },
          some file)

/-- The constant `TailWatcher::TIMER_WATCHER_DEFAULT_REPEAT`. -/
def TailWatcher.TIMER_WATCHER_DEFAULT_REPEAT : Nat := 3000

/-- The constant `TailWatcher::STAT_WATCHER_DEFAULT_INTERVAL`. -/
def TailWatcher.STAT_WATCHER_DEFAULT_INTERVAL : Nat := 1000

/-- The function `TailWatcher::isActive()`. `gettimeofdayRes` is `none` when `gettimeofday`
fails, and `getLastIOTime` is the reader's `getLastIOTime`, `none` when it reports failure.
The difference of the two `tv_sec` is converted to `unsigned long` by the multiplication
with `1000UL`, and the product is taken modulo `2^64`. -/
def TailWatcher.isActive (tw : TailWatcher) (gettimeofdayRes : Option timeval)
    (getLastIOTime : IOHandler → Option timeval) : Bool :=
  match gettimeofdayRes with
  | none => true
  | some cur_tv =>
    match tw.m_io_handler with
    | none => false
    | some h =>
      match getLastIOTime h with
      | none => true
      | some last_stat_time =>
        if (toULong (cur_tv.tv_sec - last_stat_time.tv_sec) * 1000) % 18446744073709551616
            > tw.m_stat_silent_max_ms then
          false
        else
          true

/-- The function `TailWatcher::isStateSilentMaxMsValid(stat_silent_max_ms)`. -/
def TailWatcher.isStateSilentMaxMsValid (stat_silent_max_ms : Nat) : Bool :=
  let lower_limit :=
    max TailWatcher.STAT_WATCHER_DEFAULT_INTERVAL TailWatcher.TIMER_WATCHER_DEFAULT_REPEAT
  if stat_silent_max_ms ≤ lower_limit then false else true

/-- The time from `last` to `now` in microseconds, both fields of each `timeval` counted. -/
def elapsedMicros (now last : timeval) : Int :=
  (now.tv_sec - last.tv_sec) * 1000000 + (now.tv_usec - last.tv_usec)

/-- The spec's inactivity test, `now - last_read_time > stat_silent_max_ms` with the
difference measured in milliseconds (compared here in microseconds, so that nothing is
rounded). -/
def silentLongerThan (now last : timeval) (stat_silent_max_ms : Nat) : Prop :=
  elapsedMicros now last > 1000 * (stat_silent_max_ms : Int)

instance (now last : timeval) (m : Nat) : Decidable (silentLongerThan now last m) := by
  unfold silentLongerThan; infer_instance

/-! ## Rotate handler -/

/-- The members of `RotateHandler`. `m_rotate_func` is `none` for a NULL callback, otherwise
the identity of the callback. -/
structure RotateHandler where
  m_path : String
  m_rotate_func_arg : Nat
  m_rotate_func : Option Nat
  m_inode : Nat
  m_fsize : Int
  deriving DecidableEq, Repr

/-- Calls that leave the rotate handler during one tick. -/
inductive RotateEvent where
  /-- The call `fopen(path, "r")`. -/
  | fopen (path : String)
  /-- The call `(*m_rotate_func)(m_rotate_func_arg, file)`. -/
  | rotate_func (func arg : Nat) (file : FILE)
  deriving DecidableEq, Repr

/-- What the environment answers during one tick of the rotate handler. -/
structure NotifyEnv where
  /-- What `stat(path, &buf)` stores in `buf`, `none` when `stat` fails. -/
  statRes : Option Stat
  /-- What `fopen(path, "r")` returns, `none` for NULL. -/
  fopenRes : Option FILE
  deriving DecidableEq, Repr

/-- The function `RotateHandler::init(path, rotate_func_arg, on_rotate)`; `INO_NONE` is the
constant of that name, whose definition is not among the sources. -/
def RotateHandler.init (INO_NONE : Nat) (path : String) (rotate_func_arg : Nat)
    (on_rotate : Option Nat) : RotateHandler :=
  { m_path := path, m_rotate_func_arg := rotate_func_arg, m_rotate_func := on_rotate,
    m_inode := INO_NONE, m_fsize := -1 }

/-- The function `RotateHandler::onNotify(arg)` for a non-NULL `arg`. The local `file` is
NULL again when the tick reaches its last statement, on both paths that get there, so the
closing `fclose` never runs. -/
def RotateHandler.onNotify (INO_NONE : Nat) (env : NotifyEnv) (rh : RotateHandler) :
    RotateHandler × List RotateEvent :=
  match rh.m_rotate_func with
  | none => (rh, [])
  | some func =>
    let fi : Int × Nat :=
      match env.statRes with
      | some buf => (buf.st_size, buf.st_ino)
      | none => (0, INO_NONE)
    let fsize := fi.1
    let inode := fi.2
    if rh.m_inode ≠ inode ∨ fsize < rh.m_fsize then
      match env.fopenRes with
      | none => (rh, [RotateEvent.fopen rh.m_path])
      | some file =>
        ({ rh with m_inode := inode, m_fsize := fsize },
          [RotateEvent.fopen rh.m_path, RotateEvent.rotate_func func rh.m_rotate_func_arg file])
    else
      ({ rh with m_inode := inode, m_fsize := fsize }, [])

/-- The inode one tick observes, in the spec's words: "if stat fails, treat inode as absent". -/
def observedInode (INO_NONE : Nat) : Option Stat → Nat
  | some buf => buf.st_ino
  | none => INO_NONE

/-- The size one tick observes, in the spec's words: "if stat fails, treat ... size as 0". -/
def observedSize : Option Stat → Int
  | some buf => buf.st_size
  | none => 0

/-- The spec's rotation condition: "the observed inode differs from the last observed, or the
observed size is strictly less than the last observed size". -/
def rotationSeen (INO_NONE : Nat) (statRes : Option Stat) (rh : RotateHandler) : Prop :=
  observedInode INO_NONE statRes ≠ rh.m_inode ∨ observedSize statRes < rh.m_fsize

instance (n : Nat) (s : Option Stat) (rh : RotateHandler) : Decidable (rotationSeen n s rh) := by
  unfold rotationSeen; infer_instance

/-- The calls of the rotate callback among the calls of one tick. -/
def callbackCalls (evs : List RotateEvent) : List FILE :=
  evs.filterMap fun e =>
    match e with
    | RotateEvent.rotate_func _ _ file => some file
    | _ => none

/-! ## Startup configuration -/

/-- The return values of libconfuse's `cfg_parse`. -/
inductive CfgParse where
  | CFG_SUCCESS
  | CFG_FILE_ERROR
  | CFG_PARSE_ERROR
  deriving DecidableEq, Repr

/-- One option of a libconfuse `cfg_t`: its compiled-in default and the value the parsed file
gives it, if the file has the key. -/
structure CfgOpt (α : Type) where
  dflt : α
  value : Option α

/-- The calls `cfg_getstr` and `cfg_getint`: the value from the file, else the default. -/
def CfgOpt.get {α : Type} (o : CfgOpt α) : α := o.value.getD o.dflt

/-- The options `Config::Config` registers; `cfg_getint` returns a `long`. -/
structure cfg_t where
  zk_urls : CfgOpt String
  pos_path : CfgOpt String
  line_max_bytes : CfgOpt Int
  stat_silent_max_ms : CfgOpt Int
  zookeeper_upload_interval : CfgOpt Int
  refresh_interval : CfgOpt Int
  message_send_max_retries : CfgOpt Int

/-- The public members of `Config` (`config.h` is not among the sources; the numeric members
are printed with `%lu`, so they are `unsigned long`). -/
structure Config where
  zk_urls : String
  pos_path : String
  line_max_bytes : Nat
  stat_silent_max_ms : Nat
  zookeeper_upload_interval : Nat
  refresh_interval : Nat
  message_send_max_retries : Nat
  deriving DecidableEq, Repr

/-- Modelled from the spec: the constant `HARD_LIMIT_LINE_MAX_BYTES` (`config.h` is not among
the sources): the hard cap of `line_max_bytes` is "1 MiB". -/
def HARD_LIMIT_LINE_MAX_BYTES : Nat := 1048576

/-- What the environment answers during `Config::init`. -/
structure ConfigEnv where
  /-- What `cfg_parse(m_cfg, filepath)` returns. -/
  ret : CfgParse
  /-- The option table `m_cfg` after `cfg_parse`. -/
  m_cfg : cfg_t
  /-- The directory `realDir(filepath, realdir)` finds, `none` when it returns NULL. -/
  realdir : Option String
  /-- The function `isAbsPath` of `base/tools.h`. -/
  isAbsPath : String → Bool

/-- The function `Config::init(filepath)`, with the value it returns and the members as it
leaves them. `HARD_LIMIT_ZOOKEEPER_UPLOAD_INTERVAL` is the constant of that name, whose
definition is not among the sources. -/
def Config.init (HARD_LIMIT_ZOOKEEPER_UPLOAD_INTERVAL : Nat) (env : ConfigEnv) (c : Config) :
    Bool × Config :=
  match env.ret with
  | CfgParse.CFG_PARSE_ERROR => (false, c)
  | CfgParse.CFG_FILE_ERROR => (false, c)
  | CfgParse.CFG_SUCCESS =>
    match env.realdir with
    | none => (false, c)
    | some realdir_s =>
      let c1 : Config :=
        { zk_urls := env.m_cfg.zk_urls.get,
          pos_path := env.m_cfg.pos_path.get,
          line_max_bytes := toULong env.m_cfg.line_max_bytes.get,
          stat_silent_max_ms := toULong env.m_cfg.stat_silent_max_ms.get,
          zookeeper_upload_interval := toULong env.m_cfg.zookeeper_upload_interval.get,
          refresh_interval := toULong env.m_cfg.refresh_interval.get,
          message_send_max_retries := toULong env.m_cfg.message_send_max_retries.get }
      let c2 : Config :=
        if !env.isAbsPath c1.pos_path then
          { c1 with pos_path := realdir_s ++ "/" ++ c1.pos_path }
        else c1
      if c2.line_max_bytes > HARD_LIMIT_LINE_MAX_BYTES then (false, c2)
      else if !TailWatcher.isStateSilentMaxMsValid c2.stat_silent_max_ms then (false, c2)
      else if c2.zookeeper_upload_interval > HARD_LIMIT_ZOOKEEPER_UPLOAD_INTERVAL then
        (false, c2)
      else (true, c2)

/-! ## Tail watcher: stopping and progress -/

/-- Modelled from the spec: `IOHandler::close` (`io_handler.cc` is not among the sources):
"`close()` releases the handle". -/
def IOHandler.close (h : IOHandler) : IOHandler := { h with m_file := none }

/-- The function `TailWatcher::stop(close_io)`. `onNotify` is what one call of
`IOHandler::onNotify` makes of the reader and of the position entries. -/
def TailWatcher.stop (onNotify : IOHandler → Store → IOHandler × Store) (close_io : Bool)
    (w : World) : World :=
  let tw := w.tw
  let trace1 :=
    match tw.m_timer_trigger with
    | some t => w.trace ++ [Event.timerStop t]
    | none => w.trace
  let trace2 :=
    match tw.m_stat_trigger with
    | some t => trace1 ++ [Event.statStop t]
    | none => trace1
  match close_io, tw.m_io_handler with
  | true, some h =>
    let hs := onNotify h w.store
    { tw := { tw with m_io_handler := some hs.1.close },
      store := hs.2,
      trace := trace2 ++ [Event.ioNotify h, Event.ioClose hs.1] }
  | _, _ => { tw := tw, store := w.store, trace := trace2 }

/-- Calls on the JSON writer. -/
inductive JsonCall where
  | startObject
  | string (s : String)
  | int64 (v : Int)
  | endObject
  deriving DecidableEq, Repr

/-- The function `TailWatcher::Serialize(writer)`, as the calls it makes on the writer.
The reader's `getFilePos` and `getFileSize` are parameters. -/
def TailWatcher.Serialize (getFilePos getFileSize : IOHandler → Int) (tw : TailWatcher) :
    List JsonCall :=
  let realpath := tw.m_path
  let fp : Int × Int :=
    match tw.m_io_handler with
    | some h => (getFilePos h, getFileSize h)
    | none => (-1, 0)
  [JsonCall.startObject,
   JsonCall.string "realpath", JsonCall.string realpath,
   JsonCall.string "filepos", JsonCall.int64 fp.1,
   JsonCall.string "filesize", JsonCall.int64 fp.2,
   JsonCall.endObject]

/-! ## Coordination client -/

/-- The members of `Zookeeper` that the refreshes use. -/
structure Zookeeper where
  m_zhandle : Option Nat
  m_zk_urls : String
  m_config_path : String
  m_client_path : String
  m_log_config : String
  m_broker_urls : String
  deriving DecidableEq, Repr

/-- The constant `Zookeeper::BROKER_IDS_PATH`. -/
def Zookeeper.BROKER_IDS_PATH : String := "/brokers/ids"

/-- What the coordination service and the JSON library answer. -/
structure ZkEnv where
  /-- The children `zoo_get_children` lists for a path, `none` when it does not return
  `ZOK`. -/
  zoo_get_children : String → Option (List String)
  /-- The data `zoo_get` reads at a path, `none` when it does not return `ZOK`. -/
  zoo_get : String → Option String
  /-- The members `host` and `port` of a JSON text, `none` when the text does not parse,
  is not an object, or lacks one of them. -/
  jsonHostPort : String → Option (String × Int)
  /-- The function `int2Str` of `base/tools.h`. -/
  int2Str : Int → String

/-- The function `Zookeeper::getZnodeData(path, data)`: `none` for `false`. -/
def Zookeeper.getZnodeData (env : ZkEnv) (z : Zookeeper) (path : String) : Option String :=
  match z.m_zhandle with
  | none => none
  | some _ => env.zoo_get path

/-- The function `Zookeeper::getBrokerIds(ids)`: `none` for `false`. -/
def Zookeeper.getBrokerIds (env : ZkEnv) (z : Zookeeper) : Option (List String) :=
  match z.m_zhandle with
  | none => none
  | some _ => env.zoo_get_children Zookeeper.BROKER_IDS_PATH

/-- The function `Zookeeper::getBrokerIpAndPort(brokerid, host, port)`: `none` for `false`. -/
def Zookeeper.getBrokerIpAndPort (env : ZkEnv) (z : Zookeeper) (brokerid : String) :
    Option (String × String) :=
  let brokerid_info_path := Zookeeper.BROKER_IDS_PATH ++ "/" ++ brokerid
  match z.getZnodeData env brokerid_info_path with
  | none => none
  | some brokerinfo =>
    match env.jsonHostPort brokerinfo with
    | none => none
    | some (host, port_int) => some (host, env.int2Str port_int)

/-- The loop of `Zookeeper::refreshBrokerUrls` over the ids that are left. `atBegin` says
that the iterator is at `ids.begin()`, `urls` is the member `m_broker_urls`. -/
def Zookeeper.refreshBrokerUrlsLoop (env : ZkEnv) (z : Zookeeper) :
    Bool → List String → String → Bool × String
  | _, [], urls => (true, urls)
  | atBegin, bid :: rest, urls =>
    match z.getBrokerIpAndPort env bid with
    | none => (false, urls)
    | some (host, port) =>
      let urls1 := if atBegin then urls else urls ++ ","
      Zookeeper.refreshBrokerUrlsLoop env z false rest (((urls1 ++ host) ++ ":") ++ port)

/-- The function `Zookeeper::refreshBrokerUrls()`. -/
def Zookeeper.refreshBrokerUrls (env : ZkEnv) (z : Zookeeper) : Bool × Zookeeper :=
  match z.getBrokerIds env with
  | none => (false, z)
  | some ids =>
    let r := Zookeeper.refreshBrokerUrlsLoop env z true ids z.m_broker_urls
    (r.1, { z with m_broker_urls := r.2 })

/-- The function `Zookeeper::getBrokerUrls()`. -/
def Zookeeper.getBrokerUrls (z : Zookeeper) : String := z.m_broker_urls

/-- The function `Zookeeper::refreshLogConfig()`. -/
def Zookeeper.refreshLogConfig (env : ZkEnv) (z : Zookeeper) : Bool × Zookeeper :=
  match z.getZnodeData env z.m_config_path with
  | none => (false, z)
  | some log_config => (true, { z with m_log_config := log_config })

/-- The function `Zookeeper::getLogConfig()`. -/
def Zookeeper.getLogConfig (z : Zookeeper) : String := z.m_log_config

/-- The spec's broker list: the `host:port` of each broker, in order, joined by `,`. -/
def joinedUrls (brokers : List (String × String)) : String :=
  String.intercalate "," (brokers.map fun hp => hp.1 ++ ":" ++ hp.2)

/-! ## Coordination client: the session -/

/-- The constant `ZOK` of the ZooKeeper C client. -/
def ZOK : Int := 0

/-- The constant `ZNODEEXISTS` of the ZooKeeper C client. -/
def ZNODEEXISTS : Int := -110

/-- The constant `ZOO_CONNECTED_STATE` of the ZooKeeper C client. -/
def ZOO_CONNECTED_STATE : Int := 3

/-- Calls that `refresh` and the functions under it make on the client library and on the
refreshes of the client. -/
inductive ZkCall where
  /-- The call `zookeeper_close(m_zhandle)`. -/
  | zookeeper_close (h : Nat)
  /-- The call `zookeeper_init(m_zk_urls, globalWatcher, 30000, NULL, this, 0)`. -/
  | zookeeper_init (urls : String)
  /-- The call `zookeeper->refreshBrokerUrls()`. -/
  | refreshBrokerUrls
  /-- The call `zookeeper->refreshWatchers()`. -/
  | refreshWatchers
  /-- The call `zookeeper->refreshLogConfig()`. -/
  | refreshLogConfig
  deriving DecidableEq, Repr

/-- What the client library answers about the session. -/
structure ConnEnv where
  /-- What `zoo_state` returns for a handle (`none` is the NULL handle). -/
  zoo_state : Option Nat → Int
  /-- The handle `zookeeper_init` returns, `none` for NULL. -/
  zookeeper_init : Option Nat

/-- What the coordination service answers to the calls of `refreshWatchers`: the return
codes of `zoo_exists`, `zoo_create`, `zoo_wget`, `zoo_wget_children` and of the `zoo_create`
of the ephemeral node. -/
structure WatchEnv where
  zoo_exists : String → Int
  zoo_create : String → Int
  zoo_wget : String → Int
  zoo_wget_children : String → Int
  zoo_create_ephemeral : String → Int

/-- The function `Zookeeper::connect()`, with the value it returns, the client as it leaves
it and the calls it makes. -/
def Zookeeper.connect (cenv : ConnEnv) (z : Zookeeper) : Bool × Zookeeper × List ZkCall :=
  let closing : List ZkCall :=
    match z.m_zhandle with
    | some h => [ZkCall.zookeeper_close h]
    | none => []
  match cenv.zookeeper_init with
  | none =>
    (false, { z with m_zhandle := none }, closing ++ [ZkCall.zookeeper_init z.m_zk_urls])
  | some h =>
    (true, { z with m_zhandle := some h }, closing ++ [ZkCall.zookeeper_init z.m_zk_urls])

/-- The function `Zookeeper::refreshConnection()`. -/
def Zookeeper.refreshConnection (cenv : ConnEnv) (z : Zookeeper) :
    Bool × Zookeeper × List ZkCall :=
  let res := cenv.zoo_state z.m_zhandle
  if z.m_zhandle = none ∨ ZOK ≠ res then
    let r := z.connect cenv
    if !r.1 then (false, r.2.1, r.2.2) else (true, r.2.1, r.2.2)
  else
    (true, z, [])

/-- The function `Zookeeper::ensurePathExist(path)`. The return values of the `zoo_create`
calls on the parent paths are not used. -/
def Zookeeper.ensurePathExist (wenv : WatchEnv) (z : Zookeeper) (path : String) : Bool :=
  match z.m_zhandle with
  | none => false
  | some _ =>
    if ZOK = wenv.zoo_exists path then true
    else
      let ret := wenv.zoo_create path
      if ret ≠ ZOK ∧ ret ≠ ZNODEEXISTS then false else true

/-- The function `Zookeeper::setWatcher(path, watcher, wctx)`. -/
def Zookeeper.setWatcher (wenv : WatchEnv) (z : Zookeeper) (path : String) : Bool :=
  match z.m_zhandle with
  | none => false
  | some _ =>
    if !z.ensurePathExist wenv path then false
    else if ZOK ≠ wenv.zoo_wget path then false
    else true

/-- The function `Zookeeper::setChildrenWatcher(path, watcher, wctx)`. -/
def Zookeeper.setChildrenWatcher (wenv : WatchEnv) (z : Zookeeper) (path : String) : Bool :=
  match z.m_zhandle with
  | none => false
  | some _ =>
    if !z.ensurePathExist wenv path then false
    else if ZOK ≠ wenv.zoo_wget_children path then false
    else true

/-- The function `Zookeeper::refreshWatchers()`; it changes no member of the client. -/
def Zookeeper.refreshWatchers (wenv : WatchEnv) (z : Zookeeper) : Bool :=
  if !z.setWatcher wenv z.m_config_path then false
  else if !z.setChildrenWatcher wenv Zookeeper.BROKER_IDS_PATH then false
  else if wenv.zoo_create_ephemeral z.m_client_path ≠ ZOK then false
  else true

/-- The function `Zookeeper::refresh(arg)` for a non-NULL `arg`: the client as it leaves it
and the calls it makes. The results of the three refreshes are only logged. -/
def Zookeeper.refresh (cenv : ConnEnv) (env : ZkEnv) (wenv : WatchEnv) (z : Zookeeper) :
    Zookeeper × List ZkCall :=
  let rc := z.refreshConnection cenv
  if !rc.1 then (rc.2.1, rc.2.2)
  else
    let z1 := rc.2.1
    let z2 := (z1.refreshBrokerUrls env).2
    let _w := z2.refreshWatchers wenv
    let z3 := (z2.refreshLogConfig env).2
    (z3, rc.2.2 ++ [ZkCall.refreshBrokerUrls, ZkCall.refreshWatchers, ZkCall.refreshLogConfig])

/-! ## Concrete states used in the evaluations below -/

/-- A watcher that has never opened its file: no reader, checkpoint `(0, 0)`. -/
def freshWorld (read_from_head : Bool) : World :=
  { tw := { m_manager := 0, m_path_pattern := "/tmp/a.log", m_path := "/tmp/a.log",
            m_timer_trigger := some 1, m_stat_trigger := some 2,
            m_io_handler := none, m_position_entry := 0, m_read_from_head := read_from_head,
            m_max_line_at_once := 200, m_line_max_bytes := 1048576,
            m_stat_silent_max_ms := 10000 },
    store := fun _ => { inode := 0, pos := 0 },
    trace := [] }

/-- A watcher without a reader whose checkpoint is `(7, offset)`. -/
def resumeWorld (offset : Int) : World :=
  { freshWorld false with store := fun _ => { inode := 7, pos := offset } }

/-- A watcher with a reader on an earlier handle and the checkpoint `(7, 8)`. -/
def readingWorld : World :=
  { tw := { (freshWorld true).tw with
            m_io_handler := some (IOHandler.init { fd := 3, pos := 8 } 0 200 1048576) },
    store := fun _ => { inode := 7, pos := 8 },
    trace := [] }

/-- The call is given a non-NULL handle and leaves the watcher with a reader on that handle. -/
def readerOn (w : World) (file : Option FILE) : Prop :=
  file.isSome = true ∧ w.tw.m_io_handler.bind IOHandler.m_file = file

instance (w : World) (file : Option FILE) : Decidable (readerOn w file) := by
  unfold readerOn; infer_instance

/-- A watcher with a reader and an inactivity threshold of 3500 ms. -/
def quietWatcher : TailWatcher :=
  { readingWorld.tw with m_stat_silent_max_ms := 3500 }

/-- The option table after parsing the file the unit test `TestReadConfString` writes, over
the defaults `d`, with `line_max_bytes` left open. -/
def testCfg (d : cfg_t) (line_max_bytes : Int) : cfg_t :=
  { zk_urls := { d.zk_urls with value := some "127.0.0.1:2181" },
    pos_path := { d.pos_path with value := some "/tmp/pos.logkafka_test" },
    line_max_bytes := { d.line_max_bytes with value := some line_max_bytes },
    stat_silent_max_ms := { d.stat_silent_max_ms with value := some 10000 },
    zookeeper_upload_interval := { d.zookeeper_upload_interval with value := some 10000 },
    refresh_interval := { d.refresh_interval with value := some 30000 },
    message_send_max_retries := d.message_send_max_retries }

/-- An option table for the evaluations below. Its defaults stand in for the `DEFAULT_*`
constants, whose definitions are not among the sources. -/
def someDefaults : cfg_t :=
  { zk_urls := { dflt := "", value := none },
    pos_path := { dflt := "", value := none },
    line_max_bytes := { dflt := 0, value := none },
    stat_silent_max_ms := { dflt := 0, value := none },
    zookeeper_upload_interval := { dflt := 0, value := none },
    refresh_interval := { dflt := 0, value := none },
    message_send_max_retries := { dflt := 0, value := none } }

/-- A `Config` before `init`. -/
def emptyConfig : Config :=
  { zk_urls := "", pos_path := "", line_max_bytes := 0, stat_silent_max_ms := 0,
    zookeeper_upload_interval := 0, refresh_interval := 0, message_send_max_retries := 0 }

/-- The environment of `Config::init` on that file, in `/tmp`. -/
def testEnv (d : cfg_t) (isAbsPath : String → Bool) (line_max_bytes : Int) : ConfigEnv :=
  { ret := CfgParse.CFG_SUCCESS, m_cfg := testCfg d line_max_bytes, realdir := some "/tmp",
    isAbsPath := isAbsPath }

/-- The environment of `Config::init` on the test's file with `stat_silent_max_ms = 3000`. -/
def silentEnv : ConfigEnv :=
  { ret := CfgParse.CFG_SUCCESS,
    m_cfg := { testCfg someDefaults 1024 with
      stat_silent_max_ms := { dflt := 0, value := some 3000 } },
    realdir := some "/tmp",
    isAbsPath := fun _ => true }

/-- The environment of `Config::init` on the test's file when the file parses but `realDir`
returns NULL. -/
def unresolvedEnv : ConfigEnv :=
  { ret := CfgParse.CFG_SUCCESS, m_cfg := testCfg someDefaults 1048576, realdir := none,
    isAbsPath := fun _ => true }

/-- A numeric member holds what `cfg_getint` returned for its option, converted to
`unsigned long`; a value from 0 up to the largest `long` is held unchanged. -/
def holdsValue (member : Nat) (o : CfgOpt Int) : Prop :=
  member = toULong o.get ∧
  (0 ≤ o.get → o.get < 9223372036854775808 → (member : Int) = o.get)

/-- A connected client as the constructor and `init` leave it, with the cached broker list
`urls`. -/
def zkWith (urls : String) : Zookeeper :=
  { m_zhandle := some 1, m_zk_urls := "127.0.0.1:2181", m_config_path := "/logkafka/config/h",
    m_client_path := "/logkafka/client/h", m_log_config := "\x7b\x7d", m_broker_urls := urls }

/-- A coordination service with the brokers `ids`, where the node of broker `0` holds the
text `info0`, which gives host `h1` and port 9092, the node of broker `1` holds `info1`,
which gives host `h2` and port 9093, and no other node can be read. -/
def brokersEnv (ids : List String) : ZkEnv :=
  { zoo_get_children := fun _ => some ids,
    zoo_get := fun path =>
      if path = "/brokers/ids/0" then some "info0"
      else if path = "/brokers/ids/1" then some "info1"
      else none,
    jsonHostPort := fun text =>
      if text = "info0" then some ("h1", 9092)
      else if text = "info1" then some ("h2", 9093)
      else none,
    int2Str := fun n => if n = 9092 then "9092" else "9093" }

/-- The calls of `stop` on the triggers of a watcher: each trigger that exists, the timer
trigger first. -/
def triggerStops (tw : TailWatcher) : List Event :=
  (tw.m_timer_trigger.toList.map Event.timerStop) ++
    (tw.m_stat_trigger.toList.map Event.statStop)

/-- The calls of `IOHandler::onNotify` among the calls made. -/
def drainCalls (evs : List Event) : List IOHandler :=
  evs.filterMap fun e =>
    match e with
    | Event.ioNotify h => some h
    | _ => none

/-- The calls of `IOHandler::close` among the calls made. -/
def closeCalls (evs : List Event) : List IOHandler :=
  evs.filterMap fun e =>
    match e with
    | Event.ioClose h => some h
    | _ => none

/-- A drain that reads up to offset 12 on a reader and moves the checkpoint there. -/
def drainTo12 (h : IOHandler) (store : Store) : IOHandler × Store :=
  ({ h with m_file := h.m_file.map fun f => { f with pos := 12 } },
   store.write h.m_position_entry ((store h.m_position_entry).updatePos 12))

/-- A watcher whose reader has been closed, with the checkpoint `(7, 8)`. -/
def closedReaderWorld : World :=
  { readingWorld with
    tw := { readingWorld.tw with
            m_io_handler := some (IOHandler.init { fd := 3, pos := 8 } 0 200 1048576).close } }

/-- A rotate handler with a callback that last observed inode 7 and size 10. -/
def watchingHandler : RotateHandler :=
  { m_path := "/tmp/a.log", m_rotate_func_arg := 1, m_rotate_func := some 2,
    m_inode := 7, m_fsize := 10 }

/-- A client library in which every handle is in the connected state and `zookeeper_init`
returns the handle `next`. -/
def connectedEnv (next : Option Nat) : ConnEnv :=
  { zoo_state := fun _ => ZOO_CONNECTED_STATE, zookeeper_init := next }

/-- A coordination service that answers `ZOK` to every call of `refreshWatchers`. -/
def okWatchEnv : WatchEnv :=
  { zoo_exists := fun _ => 0, zoo_create := fun _ => 0, zoo_wget := fun _ => 0,
    zoo_wget_children := fun _ => 0, zoo_create_ephemeral := fun _ => 0 }

/-! ## Supporting lemmas -/

theorem toInt32_of_lt (x : Int) (h0 : 0 ≤ x) (h1 : x < 2147483648) : toInt32 x = x := by
  unfold toInt32
  omega

theorem toInt32_le_self (x : Int) (h0 : 0 ≤ x) : toInt32 x ≤ x := by
  unfold toInt32
  omega

/-- With no reader and an unchanged inode, a stored offset below `2^31` is resumed exactly:
the handle is positioned there, the store is untouched, and the reader is installed when
its initialisation succeeds. -/
theorem onRotate_resume_of_lt (env : RotateEnv) (w : World) (file : FILE)
    (hno : w.tw.m_io_handler = none) (hino : env.buf.st_ino = w.checkpoint.inode)
    (h0 : 0 ≤ w.checkpoint.pos) (h1 : w.checkpoint.pos < 2147483648) :
    (TailWatcher.onRotate env w (some file)).2 = some { file with pos := w.checkpoint.pos } ∧
    (TailWatcher.onRotate env w (some file)).1.store = w.store ∧
    (env.initRes = true →
      (TailWatcher.onRotate env w (some file)).1.tw.m_io_handler =
        some (IOHandler.init { file with pos := w.checkpoint.pos } w.tw.m_position_entry
          (toUInt32 w.tw.m_max_line_at_once) (toUInt32 w.tw.m_line_max_bytes))) := by
  have hp : toInt32 (w.store w.tw.m_position_entry).pos = (w.store w.tw.m_position_entry).pos :=
    toInt32_of_lt _ h0 h1
  have hs : ¬ (w.store w.tw.m_position_entry).pos < 0 := not_lt.mpr h0
  have hi : env.buf.st_ino = (w.store w.tw.m_position_entry).inode := hino
  cases hr : env.initRes <;>
    simp [TailWatcher.onRotate, hno, hi, hr, hp, hs, fseek, PositionEntry.readInode,
      PositionEntry.readPos, World.checkpoint]

/-- One tick of a rotate handler with a callback calls `fopen` exactly when it sees a
rotation. -/
theorem onNotify_fopen_iff (INO_NONE : Nat) (env : NotifyEnv) (rh : RotateHandler)
    (func : Nat) (hcb : rh.m_rotate_func = some func) :
    RotateEvent.fopen rh.m_path ∈ (RotateHandler.onNotify INO_NONE env rh).2
      ↔ rotationSeen INO_NONE env.statRes rh := by
  obtain ⟨statRes, fopenRes⟩ := env
  have hne : ∀ a b : Nat, (¬ a = b) ↔ ¬ b = a := fun a b => ⟨fun h e => h e.symm, fun h e => h e.symm⟩
  cases statRes <;> cases fopenRes <;>
    simp only [RotateHandler.onNotify, hcb, rotationSeen, observedInode, observedSize, ne_eq] <;>
    split_ifs with h <;>
    simp_all [hne rh.m_inode]

theorem toULong_of_nonneg (x : Int) (h0 : 0 ≤ x) (h1 : x < 9223372036854775808) :
    (toULong x : Int) = x := by
  unfold toULong
  omega

theorem holdsValue_toULong (o : CfgOpt Int) : holdsValue (toULong o.get) o :=
  ⟨rfl, toULong_of_nonneg o.get⟩

theorem intercalate_go_append (a b s : String) (l : List String) :
    String.intercalate.go (a ++ b) s l = a ++ String.intercalate.go b s l := by
  induction l generalizing b with
  | nil => simp [String.intercalate.go]
  | cons x xs ih =>
    simp only [String.intercalate.go]
    rw [String.append_assoc, String.append_assoc, ih, String.append_assoc]

/-- The loop of `refreshBrokerUrls`, once past the first id, continues the member it is given
with `,host:port` for each broker left. -/
theorem refreshBrokerUrlsLoop_rest (env : ZkEnv) (z : Zookeeper)
    (brokers : List (String × String)) :
    ∀ (ids : List String) (urls : String),
      ids.map (z.getBrokerIpAndPort env) = brokers.map some →
      Zookeeper.refreshBrokerUrlsLoop env z false ids urls =
        (true, String.intercalate.go urls "," (brokers.map fun hp => hp.1 ++ ":" ++ hp.2)) := by
  induction brokers with
  | nil =>
    intro ids urls h
    cases ids with
    | nil => simp [Zookeeper.refreshBrokerUrlsLoop, String.intercalate.go]
    | cons a l => simp at h
  | cons hp rest ih =>
    intro ids urls h
    cases ids with
    | nil => simp at h
    | cons a l =>
      simp only [List.map_cons, List.cons.injEq] at h
      obtain ⟨h1, h2⟩ := h
      simp only [Zookeeper.refreshBrokerUrlsLoop, h1, List.map_cons, String.intercalate.go]
      rw [ih l _ h2]
      simp [String.append_assoc]

/-- When the listing of the ids and the fetch of every broker succeed, `refreshBrokerUrls`
returns true and leaves in the cache what was there before, followed by the `host:port` of
the brokers joined by `,`. -/
theorem refreshBrokerUrls_appends (env : ZkEnv) (z : Zookeeper) (ids : List String)
    (brokers : List (String × String)) (hids : z.getBrokerIds env = some ids)
    (hall : ids.map (z.getBrokerIpAndPort env) = brokers.map some) :
    (Zookeeper.refreshBrokerUrls env z).1 = true ∧
    (Zookeeper.refreshBrokerUrls env z).2.getBrokerUrls
      = z.m_broker_urls ++ joinedUrls brokers := by
  cases brokers with
  | nil =>
    cases ids with
    | nil =>
      simp [Zookeeper.refreshBrokerUrls, hids, Zookeeper.refreshBrokerUrlsLoop, joinedUrls,
        String.intercalate, Zookeeper.getBrokerUrls]
    | cons a l => simp at hall
  | cons hp rest =>
    cases ids with
    | nil => simp at hall
    | cons a l =>
      simp only [List.map_cons, List.cons.injEq] at hall
      obtain ⟨h1, h2⟩ := hall
      simp only [Zookeeper.refreshBrokerUrls, hids, Zookeeper.refreshBrokerUrlsLoop, h1,
        refreshBrokerUrlsLoop_rest env z rest l _ h2, joinedUrls, List.map_cons,
        String.intercalate, Zookeeper.getBrokerUrls, if_true]
      rw [String.append_assoc, String.append_assoc, intercalate_go_append,
        ← String.append_assoc hp.1]
      simp

/-! ## Tail watcher: where reading starts -/

/-- C1 (the code departs from the claim): a watcher that never opened its file (checkpoint
inode 0, no reader) with `read_from_head = false` is given a handle on a file of inode 42 and
size 1000. The claim has reading start at the end of the file and the checkpoint become
`(42, 1000)`; the code tests the new inode against 0 instead of the stored one, so the
checkpoint becomes `(42, 0)` and the handle stays at offset 0. -/
theorem C1_onRotate_first_open_starts_at_zero :
    (TailWatcher.onRotate { buf := { st_ino := 42, st_size := 1000 }, initRes := true }
      (freshWorld false) (some { fd := 3, pos := 0 })).1.checkpoint = { inode := 42, pos := 0 } ∧
    (TailWatcher.onRotate { buf := { st_ino := 42, st_size := 1000 }, initRes := true }
      (freshWorld false) (some { fd := 3, pos := 0 })).2 = some { fd := 3, pos := 0 } := by
  decide

/-- C2 (the code departs from the claim): with no reader and the checkpoint on the inode of
the new file, the stored offset passes through an `int`. A stored offset of `2^31` becomes
negative, `fseek` refuses it and the handle stays at 0; a stored offset of `2^32 + 5` becomes
5 and the handle is positioned at 5. The checkpoint itself is left as it was. -/
theorem C2_onRotate_resume_truncates_offset :
    (TailWatcher.onRotate { buf := { st_ino := 7, st_size := 8589934592 }, initRes := true }
      (resumeWorld 2147483648) (some { fd := 3, pos := 0 })).2 = some { fd := 3, pos := 0 } ∧
    (TailWatcher.onRotate { buf := { st_ino := 7, st_size := 8589934592 }, initRes := true }
      (resumeWorld 2147483648) (some { fd := 3, pos := 0 })).1.checkpoint
        = { inode := 7, pos := 2147483648 } ∧
    (TailWatcher.onRotate { buf := { st_ino := 7, st_size := 8589934592 }, initRes := true }
      (resumeWorld 4294967301) (some { fd := 3, pos := 0 })).2 = some { fd := 3, pos := 5 } ∧
    (TailWatcher.onRotate { buf := { st_ino := 7, st_size := 8589934592 }, initRes := true }
      (resumeWorld 4294967301) (some { fd := 3, pos := 0 })).1.checkpoint
        = { inode := 7, pos := 4294967301 } := by
  decide

/-- C3: with no reader, when the new file has a real (non-zero) inode that differs from the
checkpoint's stored inode, the handle is positioned at offset 0 and the checkpoint becomes
`(new inode, 0)`, whatever `read_from_head`, the stored offset and the outcome of the reader's
initialisation are. -/
theorem C3_onRotate_other_inode_starts_at_zero (env : RotateEnv) (w : World) (file : FILE)
    (hno : w.tw.m_io_handler = none) (hreal : env.buf.st_ino ≠ 0)
    (hdiff : env.buf.st_ino ≠ w.checkpoint.inode) :
    (TailWatcher.onRotate env w (some file)).2 = some { file with pos := 0 } ∧
    (TailWatcher.onRotate env w (some file)).1.checkpoint
      = { inode := env.buf.st_ino, pos := 0 } := by
  have hi : ¬ env.buf.st_ino = (w.store w.tw.m_position_entry).inode := hdiff
  cases hr : env.initRes <;>
    simp [TailWatcher.onRotate, hno, hi, hreal, hr, fseek, PositionEntry.readInode,
      PositionEntry.update, World.checkpoint, Store.write]

theorem C3_onRotate_other_inode_starts_at_zero_witness :
    (TailWatcher.onRotate { buf := { st_ino := 9, st_size := 100 }, initRes := true }
      (resumeWorld 20) (some { fd := 3, pos := 0 })).2 = some { fd := 3, pos := 0 } ∧
    (TailWatcher.onRotate { buf := { st_ino := 9, st_size := 100 }, initRes := true }
      (resumeWorld 20) (some { fd := 3, pos := 0 })).1.checkpoint = { inode := 9, pos := 0 } :=
  C3_onRotate_other_inode_starts_at_zero { buf := { st_ino := 9, st_size := 100 }, initRes := true }
    (resumeWorld 20) { fd := 3, pos := 0 } rfl (by decide) (by decide)

/-- C4: when a reader exists, the new handle's inode equals the checkpoint's stored inode
(truncation) and the new reader initialises: the checkpoint's offset becomes the size `fstat`
reports (0 for a file truncated to nothing), its inode is unchanged, the old reader is closed
and deleted, and the watcher's reader is a new one on the new handle and the same position
entry. -/
theorem C4_onRotate_truncation (env : RotateEnv) (w : World) (file : FILE) (cur : IOHandler)
    (hcur : w.tw.m_io_handler = some cur) (hino : env.buf.st_ino = w.checkpoint.inode)
    (hinit : env.initRes = true) :
    (TailWatcher.onRotate env w (some file)).1.checkpoint.pos = env.buf.st_size ∧
    (env.buf.st_size = 0 → (TailWatcher.onRotate env w (some file)).1.checkpoint.pos = 0) ∧
    (TailWatcher.onRotate env w (some file)).1.checkpoint.inode = w.checkpoint.inode ∧
    (TailWatcher.onRotate env w (some file)).1.trace
      = w.trace ++ [Event.ioClose cur, Event.ioDelete cur] ∧
    (TailWatcher.onRotate env w (some file)).1.tw.m_io_handler
      = some (IOHandler.init file w.tw.m_position_entry (toUInt32 w.tw.m_max_line_at_once)
          (toUInt32 w.tw.m_line_max_bytes)) ∧
    (TailWatcher.onRotate env w (some file)).1.tw.m_position_entry = w.tw.m_position_entry ∧
    (TailWatcher.onRotate env w (some file)).2 = some file := by
  have hi : env.buf.st_ino = (w.store w.tw.m_position_entry).inode := hino
  have key : (TailWatcher.onRotate env w (some file)).1.checkpoint.pos = env.buf.st_size := by
    simp [TailWatcher.onRotate, hcur, hi, hinit, PositionEntry.readInode,
      PositionEntry.updatePos, World.checkpoint, Store.write]
  refine ⟨key, fun h0 => key.trans h0, ?_, ?_, ?_, ?_, ?_⟩ <;>
    simp [TailWatcher.onRotate, hcur, hi, hinit, PositionEntry.readInode,
      PositionEntry.updatePos, World.checkpoint, Store.write]

theorem C4_onRotate_truncation_witness :
    (TailWatcher.onRotate { buf := { st_ino := 7, st_size := 0 }, initRes := true }
      readingWorld (some { fd := 4, pos := 0 })).1.checkpoint.pos = 0 :=
  (C4_onRotate_truncation { buf := { st_ino := 7, st_size := 0 }, initRes := true }
    readingWorld { fd := 4, pos := 0 } (IOHandler.init { fd := 3, pos := 8 } 0 200 1048576)
    rfl rfl rfl).2.1 rfl

/-! ## Rotate handler: one tick -/

/-- C5: for a rotate handler with a callback and every outcome of `stat`, one tick calls
`fopen` on the path exactly when the observed inode differs from the last observed one or the
observed size is below the last observed one; when that `fopen` succeeds the callback is
called once, with the new handle, and when the condition is false it is not called. -/
theorem C5_onNotify_opens_iff_rotation (INO_NONE : Nat) (env : NotifyEnv) (rh : RotateHandler)
    (func : Nat) (hcb : rh.m_rotate_func = some func) :
    (RotateEvent.fopen rh.m_path ∈ (RotateHandler.onNotify INO_NONE env rh).2
      ↔ rotationSeen INO_NONE env.statRes rh) ∧
    (∀ file, rotationSeen INO_NONE env.statRes rh → env.fopenRes = some file →
      callbackCalls (RotateHandler.onNotify INO_NONE env rh).2 = [file] ∧
      (RotateHandler.onNotify INO_NONE env rh).2 =
        [RotateEvent.fopen rh.m_path,
         RotateEvent.rotate_func func rh.m_rotate_func_arg file]) ∧
    (¬ rotationSeen INO_NONE env.statRes rh →
      (RotateHandler.onNotify INO_NONE env rh).2 = []) := by
  obtain ⟨statRes, fopenRes⟩ := env
  have hne : ∀ a b : Nat, (¬ a = b) ↔ ¬ b = a := fun a b => ⟨fun h e => h e.symm, fun h e => h e.symm⟩
  cases statRes <;> cases fopenRes <;>
    simp only [RotateHandler.onNotify, hcb, rotationSeen, observedInode, observedSize,
      callbackCalls, ne_eq] <;>
    split_ifs with h <;>
    simp_all [hne rh.m_inode]

theorem C5_onNotify_opens_iff_rotation_witness :
    callbackCalls (RotateHandler.onNotify 0
      { statRes := some { st_ino := 9, st_size := 4 }, fopenRes := some { fd := 5, pos := 0 } }
      { m_path := "/tmp/a.log", m_rotate_func_arg := 1, m_rotate_func := some 2,
        m_inode := 7, m_fsize := 20 }).2 = [{ fd := 5, pos := 0 }] :=
  ((C5_onNotify_opens_iff_rotation 0
      { statRes := some { st_ino := 9, st_size := 4 }, fopenRes := some { fd := 5, pos := 0 } }
      { m_path := "/tmp/a.log", m_rotate_func_arg := 1, m_rotate_func := some 2,
        m_inode := 7, m_fsize := 20 } 2 rfl).2.1 { fd := 5, pos := 0 } (by decide) rfl).1

/-- C6: when a tick sees a rotation but `fopen` fails, the callback is not called and the
handler is left exactly as it was, its last observed `(inode, size)` included; so a next tick
with the same `stat` result sees the rotation again and calls `fopen` again. -/
theorem C6_onNotify_open_failure_keeps_state (INO_NONE : Nat) (env : NotifyEnv)
    (rh : RotateHandler) (func : Nat) (hcb : rh.m_rotate_func = some func)
    (hrot : rotationSeen INO_NONE env.statRes rh) (hopen : env.fopenRes = none) :
    callbackCalls (RotateHandler.onNotify INO_NONE env rh).2 = [] ∧
    (RotateHandler.onNotify INO_NONE env rh).1 = rh ∧
    (∀ fopenRes,
      rotationSeen INO_NONE env.statRes (RotateHandler.onNotify INO_NONE env rh).1 ∧
      RotateEvent.fopen rh.m_path ∈
        (RotateHandler.onNotify INO_NONE { statRes := env.statRes, fopenRes := fopenRes }
          (RotateHandler.onNotify INO_NONE env rh).1).2) := by
  have hne : ∀ a b : Nat, (¬ a = b) ↔ ¬ b = a := fun a b => ⟨fun h e => h e.symm, fun h e => h e.symm⟩
  have hboth : (RotateHandler.onNotify INO_NONE env rh).1 = rh ∧
      callbackCalls (RotateHandler.onNotify INO_NONE env rh).2 = [] := by
    obtain ⟨statRes, fopenRes⟩ := env
    subst hopen
    cases statRes <;>
      simp only [RotateHandler.onNotify, hcb, rotationSeen, observedInode, observedSize,
        callbackCalls, ne_eq] at hrot ⊢ <;>
      split_ifs with h <;>
      simp_all [hne rh.m_inode]
  have hsame := hboth.1
  have hcalls := hboth.2
  refine ⟨hcalls, hsame, fun fopenRes => ?_⟩
  rw [hsame]
  exact ⟨hrot, (onNotify_fopen_iff INO_NONE { statRes := env.statRes, fopenRes := fopenRes } rh
    func hcb).mpr hrot⟩

theorem C6_onNotify_open_failure_keeps_state_witness :
    (RotateHandler.onNotify 0
      { statRes := some { st_ino := 9, st_size := 4 }, fopenRes := none }
      { m_path := "/tmp/a.log", m_rotate_func_arg := 1, m_rotate_func := some 2,
        m_inode := 7, m_fsize := 20 }).1 =
      { m_path := "/tmp/a.log", m_rotate_func_arg := 1, m_rotate_func := some 2,
        m_inode := 7, m_fsize := 20 } :=
  (C6_onNotify_open_failure_keeps_state 0
      { statRes := some { st_ino := 9, st_size := 4 }, fopenRes := none }
      { m_path := "/tmp/a.log", m_rotate_func_arg := 1, m_rotate_func := some 2,
        m_inode := 7, m_fsize := 20 } 2 rfl (by decide) rfl).2.1

/-! ## Tail watcher: checkpoint against file size -/

/-- C7 (the claim as stated fails): a watcher without a reader whose checkpoint is `(7, 500)`
is given a handle on a file of inode 7 and size 100. The reader is installed on the handle,
the checkpoint is left at offset 500, above the size 100 that `fstat` reported. -/
theorem C7_counterexample_resume_beyond_size :
    readerOn
      (TailWatcher.onRotate { buf := { st_ino := 7, st_size := 100 }, initRes := true }
        (resumeWorld 500) (some { fd := 3, pos := 0 })).1
      (TailWatcher.onRotate { buf := { st_ino := 7, st_size := 100 }, initRes := true }
        (resumeWorld 500) (some { fd := 3, pos := 0 })).2 ∧
    ¬ (TailWatcher.onRotate { buf := { st_ino := 7, st_size := 100 }, initRes := true }
        (resumeWorld 500) (some { fd := 3, pos := 0 })).1.checkpoint.pos ≤ 100 := by
  decide

/-- C7 (amended): after a call of `onRotate` with a freshly opened handle (position 0, not
the handle of the current reader) on a file of non-negative size, if the call leaves a reader
installed on that handle then the checkpoint's offset does not exceed the size `fstat`
reported, for every prior checkpoint and size, except that the resume of a watcher without a
reader on an unchanged inode keeps the stored offset: there the bound holds when the stored
offset already satisfied it. -/
theorem C7_onRotate_checkpoint_le_size (env : RotateEnv) (w : World) (file : FILE)
    (hsize : 0 ≤ env.buf.st_size) (hpos : file.pos = 0)
    (hfresh : ∀ h g, w.tw.m_io_handler = some h → h.m_file = some g → g.fd ≠ file.fd)
    (hresume : w.tw.m_io_handler = none → env.buf.st_ino = w.checkpoint.inode →
      w.checkpoint.pos ≤ env.buf.st_size)
    (hinst : readerOn (TailWatcher.onRotate env w (some file)).1
      (TailWatcher.onRotate env w (some file)).2) :
    (TailWatcher.onRotate env w (some file)).1.checkpoint.pos ≤ env.buf.st_size := by
  cases hcur : w.tw.m_io_handler with
  | none =>
    by_cases hi : env.buf.st_ino = (w.store w.tw.m_position_entry).inode
    · have hb := hresume hcur hi
      cases hr : env.initRes <;>
        simpa [TailWatcher.onRotate, hcur, hi, hr, PositionEntry.readInode, World.checkpoint]
          using hb
    · by_cases hz : env.buf.st_ino = 0
      · have hi0 : ¬ 0 = (w.store w.tw.m_position_entry).inode := by rw [← hz]; exact hi
        have h1 : toInt32 env.buf.st_size ≤ env.buf.st_size := toInt32_le_self _ hsize
        have h2 : toInt32 0 = 0 := by decide
        cases hr : env.initRes <;> cases hh : w.tw.m_read_from_head <;>
          simp [TailWatcher.onRotate, hcur, hi0, hz, hr, hh, h2, PositionEntry.readInode,
            PositionEntry.update, World.checkpoint, Store.write, hsize, h1]
      · cases hr : env.initRes <;>
          simp [TailWatcher.onRotate, hcur, hi, hz, hr, PositionEntry.readInode,
            PositionEntry.update, World.checkpoint, Store.write, hsize]
  | some cur =>
    by_cases hi : env.buf.st_ino = (w.store w.tw.m_position_entry).inode
    · cases hr : env.initRes <;>
        simp [TailWatcher.onRotate, hcur, hi, hr, PositionEntry.readInode,
          PositionEntry.updatePos, World.checkpoint, Store.write]
    · cases hf : cur.m_file with
      | none =>
        cases hr : env.initRes <;>
          simp [TailWatcher.onRotate, hcur, hi, hf, hr, PositionEntry.readInode,
            PositionEntry.update, World.checkpoint, Store.write, ftell, hpos, hsize]
      | some g =>
        exfalso
        have hg : g.fd ≠ file.fd := hfresh cur g hcur hf
        have : g = file := by
          simpa [readerOn, TailWatcher.onRotate, hcur, hi, hf, PositionEntry.readInode]
            using hinst
        exact hg (by rw [this])

theorem C7_onRotate_checkpoint_le_size_witness :
    (TailWatcher.onRotate { buf := { st_ino := 7, st_size := 3 }, initRes := true }
      readingWorld (some { fd := 4, pos := 0 })).1.checkpoint.pos ≤ 3 :=
  C7_onRotate_checkpoint_le_size { buf := { st_ino := 7, st_size := 3 }, initRes := true }
    readingWorld { fd := 4, pos := 0 } (by decide) rfl
    (by intro h g hh hg; cases hh; cases hg; decide)
    (by intro hnone; cases hnone) (by decide)

/-! ## Tail watcher: inactivity -/

/-- C8 (the claim as stated fails): with a threshold of 3500 ms, a last read at 10.0 s and
the clock at 13.9 s, 3900 ms have passed, more than the threshold, yet `isActive` returns
true: it compares `(13 - 10) * 1000 = 3000` with 3500. -/
theorem C8_counterexample_subsecond :
    silentLongerThan { tv_sec := 13, tv_usec := 900000 } { tv_sec := 10, tv_usec := 0 }
      quietWatcher.m_stat_silent_max_ms ∧
    TailWatcher.isActive quietWatcher (some { tv_sec := 13, tv_usec := 900000 })
      (fun _ => some { tv_sec := 10, tv_usec := 0 }) = true := by
  decide

/-- C8 (amended): for a watcher with a reader whose last I/O time is available and a current
time whose seconds are not before those of the last read, `isActive` returns false exactly
when the difference of the whole seconds of the two times, times 1000, is strictly greater
than `stat_silent_max_ms` (the microseconds of both times are ignored), and true otherwise. -/
theorem C8_isActive_whole_seconds (tw : TailWatcher) (h : IOHandler) (now last : timeval)
    (getLastIOTime : IOHandler → Option timeval)
    (hreader : tw.m_io_handler = some h) (hlast : getLastIOTime h = some last)
    (hle : last.tv_sec ≤ now.tv_sec)
    (hbound : (now.tv_sec - last.tv_sec) * 1000 < 18446744073709551616) :
    (tw.isActive (some now) getLastIOTime = false
      ↔ (now.tv_sec - last.tv_sec) * 1000 > (tw.m_stat_silent_max_ms : Int)) ∧
    (tw.isActive (some now) getLastIOTime = true
      ↔ ¬ (now.tv_sec - last.tv_sec) * 1000 > (tw.m_stat_silent_max_ms : Int)) := by
  obtain ⟨d, hd⟩ := Int.eq_ofNat_of_zero_le (sub_nonneg.mpr hle)
  rw [hd] at hbound ⊢
  have hd1 : d * 1000 < 18446744073709551616 := by omega
  have hu : toULong (d : Int) = d := by
    unfold toULong
    omega
  have hm : d * 1000 % 18446744073709551616 = d * 1000 := Nat.mod_eq_of_lt hd1
  simp only [TailWatcher.isActive, hreader, hlast, hd, hu, hm]
  constructor <;> split_ifs with hc <;> simp <;> omega

theorem C8_isActive_whole_seconds_witness :
    TailWatcher.isActive quietWatcher (some { tv_sec := 14, tv_usec := 0 })
      (fun _ => some { tv_sec := 10, tv_usec := 999999 }) = false :=
  (C8_isActive_whole_seconds quietWatcher (IOHandler.init { fd := 3, pos := 8 } 0 200 1048576)
    { tv_sec := 14, tv_usec := 0 } { tv_sec := 10, tv_usec := 999999 }
    (fun _ => some { tv_sec := 10, tv_usec := 999999 }) rfl rfl (by decide) (by decide)).1.mpr
    (by decide)

/-! ## Startup configuration -/

/-- C9: `isStateSilentMaxMsValid v` is false exactly when `v ≤ max(1000, 3000) = 3000` (3000
is rejected, 3001 accepted), and `Config::init` returns false whenever the value it reads for
`stat_silent_max_ms` is rejected. -/
theorem C9_stat_silent_max_ms_validated (H : Nat) (env : ConfigEnv) (c : Config) (v : Nat) :
    (TailWatcher.isStateSilentMaxMsValid v = false
      ↔ v ≤ max TailWatcher.STAT_WATCHER_DEFAULT_INTERVAL
          TailWatcher.TIMER_WATCHER_DEFAULT_REPEAT) ∧
    max TailWatcher.STAT_WATCHER_DEFAULT_INTERVAL TailWatcher.TIMER_WATCHER_DEFAULT_REPEAT
      = 3000 ∧
    TailWatcher.isStateSilentMaxMsValid 3000 = false ∧
    TailWatcher.isStateSilentMaxMsValid 3001 = true ∧
    (TailWatcher.isStateSilentMaxMsValid (toULong env.m_cfg.stat_silent_max_ms.get) = false →
      (Config.init H env c).1 = false) := by
  refine ⟨?_, by decide, by decide, by decide, ?_⟩
  · unfold TailWatcher.isStateSilentMaxMsValid TailWatcher.STAT_WATCHER_DEFAULT_INTERVAL
      TailWatcher.TIMER_WATCHER_DEFAULT_REPEAT
    simp
  · intro hv
    unfold Config.init
    split
    · rfl
    · rfl
    · split
      · rfl
      · simp only []
        split_ifs <;> simp_all

theorem C9_stat_silent_max_ms_validated_witness :
    (Config.init 60000 silentEnv emptyConfig).1 = false :=
  (C9_stat_silent_max_ms_validated 60000 silentEnv emptyConfig 3000).2.2.2.2 (by decide)

/-- C10: for a config file that parses and whose directory resolves, `Config::init` returns
true exactly when `line_max_bytes ≤ HARD_LIMIT_LINE_MAX_BYTES` (1 MiB: 1048576 passes, 1048577
does not), `stat_silent_max_ms` is valid and
`zookeeper_upload_interval ≤ HARD_LIMIT_ZOOKEEPER_UPLOAD_INTERVAL`, the three read as the
members `init` has just assigned; and it returns false when the parser reports a parse error
or a file error. -/
theorem C10_init_accepts_iff_within_limits (H : Nat) (env : ConfigEnv) (c : Config)
    (d : cfg_t) (isAbsPath : String → Bool) :
    (env.ret = CfgParse.CFG_SUCCESS → env.realdir.isSome = true →
      ((Config.init H env c).1 = true ↔
        (Config.init H env c).2.line_max_bytes ≤ HARD_LIMIT_LINE_MAX_BYTES ∧
        TailWatcher.isStateSilentMaxMsValid (Config.init H env c).2.stat_silent_max_ms = true ∧
        (Config.init H env c).2.zookeeper_upload_interval ≤ H)) ∧
    (env.ret = CfgParse.CFG_PARSE_ERROR ∨ env.ret = CfgParse.CFG_FILE_ERROR →
      (Config.init H env c).1 = false) ∧
    HARD_LIMIT_LINE_MAX_BYTES = 1048576 ∧
    (Config.init H (testEnv d isAbsPath 1048576) c).1 = decide (10000 ≤ H) ∧
    (Config.init H (testEnv d isAbsPath 1048577) c).1 = false := by
  refine ⟨?_, ?_, rfl, ?_, ?_⟩
  · intro hret hdir
    obtain ⟨dir, hdir⟩ := Option.isSome_iff_exists.mp hdir
    unfold Config.init
    simp only [hret, hdir]
    split_ifs <;> simp_all
  · rintro (hret | hret) <;> simp [Config.init, hret]
  · cases hp : isAbsPath "/tmp/pos.logkafka_test" <;>
      simp [Config.init, testEnv, testCfg, CfgOpt.get, hp, toULong, HARD_LIMIT_LINE_MAX_BYTES,
        TailWatcher.isStateSilentMaxMsValid, TailWatcher.STAT_WATCHER_DEFAULT_INTERVAL,
        TailWatcher.TIMER_WATCHER_DEFAULT_REPEAT] <;>
      split_ifs with h <;> simp [h] <;> omega
  · cases hp : isAbsPath "/tmp/pos.logkafka_test" <;>
      simp [Config.init, testEnv, testCfg, CfgOpt.get, hp, toULong, HARD_LIMIT_LINE_MAX_BYTES]

theorem C10_init_accepts_iff_within_limits_witness :
    (Config.init 60000 (testEnv someDefaults (fun _ => true) 1048576) emptyConfig).1 = true :=
  ((C10_init_accepts_iff_within_limits 60000 (testEnv someDefaults (fun _ => true) 1048576)
    emptyConfig someDefaults (fun _ => true)).1 rfl rfl).mpr (by decide)

/-- C11 (the claim as stated fails): the test's file parses and gives the absolute
`pos_path = /tmp/pos.logkafka_test`, but `realDir` returns NULL. `init` returns false before
it assigns any member, and `pos_path` is still what it was before the call, not the configured
value. -/
theorem C11_counterexample_directory_unresolved :
    unresolvedEnv.ret = CfgParse.CFG_SUCCESS ∧
    unresolvedEnv.m_cfg.pos_path.get = "/tmp/pos.logkafka_test" ∧
    unresolvedEnv.isAbsPath unresolvedEnv.m_cfg.pos_path.get = true ∧
    (Config.init 60000 unresolvedEnv emptyConfig).2.pos_path = "" ∧
    (Config.init 60000 unresolvedEnv emptyConfig).2.pos_path
      ≠ unresolvedEnv.m_cfg.pos_path.get := by
  decide

/-- C11 (amended): after a `Config::init` that gets past parsing and past the resolution of
the config file's directory, `pos_path` is the configured value unchanged when `isAbsPath`
accepts it, and the real directory, then `/`, then the configured value when it does not. -/
theorem C11_pos_path_resolved (H : Nat) (env : ConfigEnv) (c : Config) (dir : String)
    (hret : env.ret = CfgParse.CFG_SUCCESS) (hdir : env.realdir = some dir) :
    (env.isAbsPath env.m_cfg.pos_path.get = true →
      (Config.init H env c).2.pos_path = env.m_cfg.pos_path.get) ∧
    (env.isAbsPath env.m_cfg.pos_path.get = false →
      (Config.init H env c).2.pos_path = dir ++ "/" ++ env.m_cfg.pos_path.get) := by
  constructor <;> intro habs <;>
    simp only [Config.init, hret, hdir, habs] <;>
    split_ifs <;> simp_all

theorem C11_pos_path_resolved_witness :
    (Config.init 60000 (testEnv someDefaults (fun _ => false) 1048576) emptyConfig).2.pos_path
      = "/tmp" ++ "/" ++ "/tmp/pos.logkafka_test" :=
  (C11_pos_path_resolved 60000 (testEnv someDefaults (fun _ => false) 1048576) emptyConfig
    "/tmp" rfl rfl).2 rfl

/-- C12 (the claim as stated fails): on the test's file, which parses, `zk_urls` is still
empty after `init` when `realDir` returns NULL, although the file gives `127.0.0.1:2181`; and
with `line_max_bytes = -1` in the file the member, an `unsigned long`, is
18446744073709551615 after `init`. -/
theorem C12_counterexample_unassigned_or_converted :
    unresolvedEnv.ret = CfgParse.CFG_SUCCESS ∧
    unresolvedEnv.m_cfg.zk_urls.value = some "127.0.0.1:2181" ∧
    (Config.init 60000 unresolvedEnv emptyConfig).2.zk_urls = "" ∧
    (testEnv someDefaults (fun _ => true) (-1)).m_cfg.line_max_bytes.value = some (-1) ∧
    (Config.init 60000 (testEnv someDefaults (fun _ => true) (-1)) emptyConfig).2.line_max_bytes
      = 18446744073709551615 := by
  decide

/-- C12 (amended): for every config file that parses and whose directory resolves, after
`Config::init` the member `zk_urls` is the value the file gives for the key, and each of
`line_max_bytes`, `stat_silent_max_ms`, `zookeeper_upload_interval`, `refresh_interval` and
`message_send_max_retries` is the value the file gives for its key converted to
`unsigned long`, which is that value itself when it is not negative; a key the file omits
stands for its compiled-in default. -/
theorem C12_members_hold_file_values (H : Nat) (env : ConfigEnv) (c : Config) (dir : String)
    (hret : env.ret = CfgParse.CFG_SUCCESS) (hdir : env.realdir = some dir) :
    (Config.init H env c).2.zk_urls = env.m_cfg.zk_urls.get ∧
    holdsValue (Config.init H env c).2.line_max_bytes env.m_cfg.line_max_bytes ∧
    holdsValue (Config.init H env c).2.stat_silent_max_ms env.m_cfg.stat_silent_max_ms ∧
    holdsValue (Config.init H env c).2.zookeeper_upload_interval
      env.m_cfg.zookeeper_upload_interval ∧
    holdsValue (Config.init H env c).2.refresh_interval env.m_cfg.refresh_interval ∧
    holdsValue (Config.init H env c).2.message_send_max_retries
      env.m_cfg.message_send_max_retries ∧
    (∀ (α : Type) (o : CfgOpt α),
      (∀ v, o.value = some v → o.get = v) ∧ (o.value = none → o.get = o.dflt)) := by
  have hc : (Config.init H env c).2.zk_urls = env.m_cfg.zk_urls.get ∧
      (Config.init H env c).2.line_max_bytes = toULong env.m_cfg.line_max_bytes.get ∧
      (Config.init H env c).2.stat_silent_max_ms = toULong env.m_cfg.stat_silent_max_ms.get ∧
      (Config.init H env c).2.zookeeper_upload_interval
        = toULong env.m_cfg.zookeeper_upload_interval.get ∧
      (Config.init H env c).2.refresh_interval = toULong env.m_cfg.refresh_interval.get ∧
      (Config.init H env c).2.message_send_max_retries
        = toULong env.m_cfg.message_send_max_retries.get := by
    simp only [Config.init, hret, hdir]
    split_ifs <;> simp
  obtain ⟨h1, h2, h3, h4, h5, h6⟩ := hc
  refine ⟨h1, ?_, ?_, ?_, ?_, ?_, ?_⟩
  · rw [h2]; exact holdsValue_toULong _
  · rw [h3]; exact holdsValue_toULong _
  · rw [h4]; exact holdsValue_toULong _
  · rw [h5]; exact holdsValue_toULong _
  · rw [h6]; exact holdsValue_toULong _
  · intro α o
    constructor
    · intro v hv
      simp [CfgOpt.get, hv]
    · intro hv
      simp [CfgOpt.get, hv]

theorem C12_members_hold_file_values_witness :
    (Config.init 60000 (testEnv someDefaults (fun _ => true) 1048576) emptyConfig).2.zk_urls
      = "127.0.0.1:2181" :=
  (C12_members_hold_file_values 60000 (testEnv someDefaults (fun _ => true) 1048576)
    emptyConfig "/tmp" rfl rfl).1

/-! ## Coordination client: the caches -/

/-- C13 (the code departs from the claim): with one broker `0` at `h1:9092` and an empty
cache, a first `refreshBrokerUrls` returns true and `getBrokerUrls` gives `h1:9092`; a second
one against the same broker set returns true and `getBrokerUrls` gives `h1:9092h1:9092`. The
loop appends to the member `m_broker_urls`, which is never cleared, so what was cached before
stays in front of the new list. -/
theorem C13_refreshBrokerUrls_appends_to_cache :
    (Zookeeper.refreshBrokerUrls (brokersEnv ["0"]) (zkWith "")).1 = true ∧
    (Zookeeper.refreshBrokerUrls (brokersEnv ["0"]) (zkWith "")).2.getBrokerUrls = "h1:9092" ∧
    (Zookeeper.refreshBrokerUrls (brokersEnv ["0"])
      (Zookeeper.refreshBrokerUrls (brokersEnv ["0"]) (zkWith "")).2).1 = true ∧
    (Zookeeper.refreshBrokerUrls (brokersEnv ["0"])
      (Zookeeper.refreshBrokerUrls (brokersEnv ["0"]) (zkWith "")).2).2.getBrokerUrls
        = "h1:9092h1:9092" ∧
    joinedUrls [("h1", "9092")] = "h1:9092" := by
  decide

/-- C14 (the code departs from the claim): with the cache at `h1:9092` and the brokers
`0` and `2`, of which the node of `2` cannot be read, `refreshBrokerUrls` returns false after
it has appended the first broker: the cache is `h1:9092h1:9092`, not what it was. The other
half of the claim holds: whenever `refreshLogConfig` returns false the client, its cached
log config included, is as it was; so is it when `refreshBrokerUrls` fails in the
listing of the ids. -/
theorem C14_failed_refresh_and_caches :
    (Zookeeper.refreshBrokerUrls (brokersEnv ["0", "2"]) (zkWith "h1:9092")).1 = false ∧
    (Zookeeper.refreshBrokerUrls (brokersEnv ["0", "2"]) (zkWith "h1:9092")).2.getBrokerUrls
      = "h1:9092h1:9092" ∧
    (∀ (env : ZkEnv) (z : Zookeeper), (Zookeeper.refreshLogConfig env z).1 = false →
      (Zookeeper.refreshLogConfig env z).2 = z) ∧
    (∀ (env : ZkEnv) (z : Zookeeper), z.getBrokerIds env = none →
      Zookeeper.refreshBrokerUrls env z = (false, z)) := by
  refine ⟨by decide, by decide, ?_, ?_⟩
  · intro env z h
    unfold Zookeeper.refreshLogConfig at h ⊢
    cases hd : z.getZnodeData env z.m_config_path with
    | none => simp
    | some d => simp [hd] at h
  · intro env z h
    simp [Zookeeper.refreshBrokerUrls, h]

/-! ## Tail watcher: stopping, progress and the remaining rotate cases -/

/-- C15: `stop(close_io)` calls `stop` on the timer trigger and on the stat trigger (each
one that exists, in that order). With `close_io` true and a reader, the reader is then
notified once and closed, and the watcher's reader is the drained reader, closed. With
`close_io` false, or without a reader, no reader is notified or closed and the watcher and
the position entries are unchanged. -/
theorem C15_stop_triggers_and_reader (onNotify : IOHandler → Store → IOHandler × Store)
    (close_io : Bool) (w : World) :
    (∀ t s, w.tw.m_timer_trigger = some t → w.tw.m_stat_trigger = some s →
      triggerStops w.tw = [Event.timerStop t, Event.statStop s]) ∧
    (∀ h, close_io = true → w.tw.m_io_handler = some h →
      (TailWatcher.stop onNotify close_io w).trace
        = w.trace ++ triggerStops w.tw ++ [Event.ioNotify h, Event.ioClose (onNotify h w.store).1] ∧
      drainCalls ((TailWatcher.stop onNotify close_io w).trace.drop w.trace.length) = [h] ∧
      closeCalls ((TailWatcher.stop onNotify close_io w).trace.drop w.trace.length)
        = [(onNotify h w.store).1] ∧
      (TailWatcher.stop onNotify close_io w).tw.m_io_handler
        = some { (onNotify h w.store).1 with m_file := none } ∧
      (TailWatcher.stop onNotify close_io w).store = (onNotify h w.store).2) ∧
    (close_io = false ∨ w.tw.m_io_handler = none →
      (TailWatcher.stop onNotify close_io w).trace = w.trace ++ triggerStops w.tw ∧
      drainCalls ((TailWatcher.stop onNotify close_io w).trace.drop w.trace.length) = [] ∧
      closeCalls ((TailWatcher.stop onNotify close_io w).trace.drop w.trace.length) = [] ∧
      (TailWatcher.stop onNotify close_io w).tw = w.tw ∧
      (TailWatcher.stop onNotify close_io w).store = w.store) := by
  obtain ⟨tw, store, trace⟩ := w
  refine ⟨?_, ?_, ?_⟩
  · intro t s ht hs
    simp only at ht hs
    simp [triggerStops, ht, hs]
  · intro h hc hr
    simp only at hr
    subst hc
    cases ht : tw.m_timer_trigger <;> cases hs : tw.m_stat_trigger <;>
      simp [TailWatcher.stop, triggerStops, drainCalls, closeCalls, IOHandler.close, ht, hs, hr]
  · intro hc
    cases ht : tw.m_timer_trigger <;> cases hs : tw.m_stat_trigger <;>
      cases hr : tw.m_io_handler <;> cases close_io <;>
      simp_all [TailWatcher.stop, triggerStops, drainCalls, closeCalls]

theorem C15_stop_triggers_and_reader_witness :
    (TailWatcher.stop drainTo12 true readingWorld).trace
      = [Event.timerStop 1, Event.statStop 2,
         Event.ioNotify (IOHandler.init { fd := 3, pos := 8 } 0 200 1048576),
         Event.ioClose (IOHandler.init { fd := 3, pos := 12 } 0 200 1048576)] :=
  ((C15_stop_triggers_and_reader drainTo12 true readingWorld).2.1
    (IOHandler.init { fd := 3, pos := 8 } 0 200 1048576) rfl rfl).1

/-- C16: `Serialize` writes one JSON object, with the keys `realpath`, `filepos` and
`filesize` in that order; `realpath` is the watcher's expanded path; with a reader `filepos`
and `filesize` are its `getFilePos()` and `getFileSize()`, without one they are -1 and 0. -/
theorem C16_serialize_progress (getFilePos getFileSize : IOHandler → Int) (tw : TailWatcher) :
    (∀ h, tw.m_io_handler = some h →
      TailWatcher.Serialize getFilePos getFileSize tw =
        [JsonCall.startObject,
         JsonCall.string "realpath", JsonCall.string tw.m_path,
         JsonCall.string "filepos", JsonCall.int64 (getFilePos h),
         JsonCall.string "filesize", JsonCall.int64 (getFileSize h),
         JsonCall.endObject]) ∧
    (tw.m_io_handler = none →
      TailWatcher.Serialize getFilePos getFileSize tw =
        [JsonCall.startObject,
         JsonCall.string "realpath", JsonCall.string tw.m_path,
         JsonCall.string "filepos", JsonCall.int64 (-1),
         JsonCall.string "filesize", JsonCall.int64 0,
         JsonCall.endObject]) ∧
    (TailWatcher.Serialize getFilePos getFileSize tw).count JsonCall.startObject = 1 ∧
    (TailWatcher.Serialize getFilePos getFileSize tw).count JsonCall.endObject = 1 ∧
    (TailWatcher.Serialize getFilePos getFileSize tw).head? = some JsonCall.startObject ∧
    (TailWatcher.Serialize getFilePos getFileSize tw).getLast? = some JsonCall.endObject := by
  refine ⟨?_, ?_, ?_, ?_, ?_, ?_⟩
  · intro h hr
    simp [TailWatcher.Serialize, hr]
  · intro hr
    simp [TailWatcher.Serialize, hr]
  · simp [TailWatcher.Serialize, List.count_cons]
  · simp [TailWatcher.Serialize, List.count_cons]
  · simp [TailWatcher.Serialize]
  · simp [TailWatcher.Serialize]

theorem C16_serialize_progress_witness :
    TailWatcher.Serialize (fun _ => 12) (fun _ => 40) (freshWorld true).tw =
      [JsonCall.startObject,
       JsonCall.string "realpath", JsonCall.string "/tmp/a.log",
       JsonCall.string "filepos", JsonCall.int64 (-1),
       JsonCall.string "filesize", JsonCall.int64 0,
       JsonCall.endObject] :=
  (C16_serialize_progress (fun _ => 12) (fun _ => 40) (freshWorld true).tw).2.1 rfl

/-- C17: when a reader exists, its handle is still open and the new file's inode differs
from the checkpoint's stored inode, `onRotate` makes one call, the update callback with the
watcher's manager, path pattern, path and position entry, and leaves the watcher (its reader
and its position-entry reference with it), the reader's position entry and every position
entry as they were. -/
theorem C17_onRotate_rotation_hands_over (env : RotateEnv) (w : World) (file g : FILE)
    (cur : IOHandler) (hcur : w.tw.m_io_handler = some cur) (hopen : cur.m_file = some g)
    (hdiff : env.buf.st_ino ≠ w.checkpoint.inode) :
    (TailWatcher.onRotate env w (some file)).1.trace
      = w.trace ++
        [Event.updateWatcher w.tw.m_manager w.tw.m_path_pattern w.tw.m_path
          w.tw.m_position_entry] ∧
    (TailWatcher.onRotate env w (some file)).1.tw = w.tw ∧
    (TailWatcher.onRotate env w (some file)).1.tw.m_io_handler = some cur ∧
    (TailWatcher.onRotate env w (some file)).1.store = w.store ∧
    (TailWatcher.onRotate env w (some file)).1.checkpoint = w.checkpoint := by
  have hi : ¬ env.buf.st_ino = (w.store w.tw.m_position_entry).inode := hdiff
  simp [TailWatcher.onRotate, hcur, hopen, hi, PositionEntry.readInode, World.checkpoint]

theorem C17_onRotate_rotation_hands_over_witness :
    (TailWatcher.onRotate { buf := { st_ino := 9, st_size := 4 }, initRes := true }
      readingWorld (some { fd := 4, pos := 0 })).1.trace
      = [Event.updateWatcher 0 "/tmp/a.log" "/tmp/a.log" 0] :=
  (C17_onRotate_rotation_hands_over { buf := { st_ino := 9, st_size := 4 }, initRes := true }
    readingWorld { fd := 4, pos := 0 } { fd := 3, pos := 8 }
    (IOHandler.init { fd := 3, pos := 8 } 0 200 1048576) rfl rfl (by decide)).1

/-- C18: when a reader exists whose handle has already been closed, the new file's inode
differs from the checkpoint's stored inode and the new reader initialises, the checkpoint
becomes (new inode, current position of the new handle) and the watcher's reader is a new
reader on the new handle and the same position entry; the old reader is deleted. -/
theorem C18_onRotate_closed_reader_replaced (env : RotateEnv) (w : World) (file : FILE)
    (cur : IOHandler) (hcur : w.tw.m_io_handler = some cur) (hclosed : cur.m_file = none)
    (hdiff : env.buf.st_ino ≠ w.checkpoint.inode) (hinit : env.initRes = true) :
    (TailWatcher.onRotate env w (some file)).1.checkpoint
      = { inode := env.buf.st_ino, pos := ftell file } ∧
    (TailWatcher.onRotate env w (some file)).1.tw.m_io_handler
      = some (IOHandler.init file w.tw.m_position_entry (toUInt32 w.tw.m_max_line_at_once)
          (toUInt32 w.tw.m_line_max_bytes)) ∧
    (TailWatcher.onRotate env w (some file)).1.tw.m_position_entry = w.tw.m_position_entry ∧
    (TailWatcher.onRotate env w (some file)).1.trace = w.trace ++ [Event.ioDelete cur] ∧
    (TailWatcher.onRotate env w (some file)).2 = some file := by
  have hi : ¬ env.buf.st_ino = (w.store w.tw.m_position_entry).inode := hdiff
  simp [TailWatcher.onRotate, hcur, hclosed, hi, hinit, PositionEntry.readInode,
    PositionEntry.update, World.checkpoint, Store.write]

theorem C18_onRotate_closed_reader_replaced_witness :
    (TailWatcher.onRotate { buf := { st_ino := 9, st_size := 4 }, initRes := true }
      closedReaderWorld (some { fd := 4, pos := 0 })).1.checkpoint = { inode := 9, pos := 0 } :=
  (C18_onRotate_closed_reader_replaced { buf := { st_ino := 9, st_size := 4 }, initRes := true }
    closedReaderWorld { fd := 4, pos := 0 }
    (IOHandler.init { fd := 3, pos := 8 } 0 200 1048576).close rfl rfl (by decide) rfl).1

/-! ## Rotate handler: quiet ticks and the first tick -/

/-- C19 (the claim as stated fails): a handler that last observed inode 7 and size 10 sees
inode 7 and size 20. Neither rotation condition holds and nothing is opened or called, but
the last observed size is 20 after the tick, not 10. -/
theorem C19_counterexample_size_advances :
    ¬ rotationSeen 0 (some { st_ino := 7, st_size := 20 }) watchingHandler ∧
    (RotateHandler.onNotify 0
      { statRes := some { st_ino := 7, st_size := 20 }, fopenRes := some { fd := 5, pos := 0 } }
      watchingHandler).2 = [] ∧
    (RotateHandler.onNotify 0
      { statRes := some { st_ino := 7, st_size := 20 }, fopenRes := some { fd := 5, pos := 0 } }
      watchingHandler).1.m_fsize = 20 ∧
    watchingHandler.m_fsize = 10 := by
  decide

/-- C19 (amended): on a tick where neither rotation condition holds, the path is not opened
and the callback is not called, the last observed inode is the same after the tick as before
it, and the last observed size does not decrease: for a handler with a callback it becomes
the size just observed. -/
theorem C19_onNotify_quiet_tick (INO_NONE : Nat) (env : NotifyEnv) (rh : RotateHandler)
    (hquiet : ¬ rotationSeen INO_NONE env.statRes rh) :
    (RotateHandler.onNotify INO_NONE env rh).2 = [] ∧
    (RotateHandler.onNotify INO_NONE env rh).1.m_inode = rh.m_inode ∧
    rh.m_fsize ≤ (RotateHandler.onNotify INO_NONE env rh).1.m_fsize ∧
    (rh.m_rotate_func ≠ none →
      (RotateHandler.onNotify INO_NONE env rh).1.m_fsize = observedSize env.statRes) := by
  obtain ⟨statRes, fopenRes⟩ := env
  have hne : ∀ a b : Nat, (¬ a = b) ↔ ¬ b = a := fun a b => ⟨fun h e => h e.symm, fun h e => h e.symm⟩
  cases hcb : rh.m_rotate_func with
  | none => simp [RotateHandler.onNotify, hcb]
  | some func =>
    cases statRes <;>
      simp only [RotateHandler.onNotify, hcb, rotationSeen, observedInode, observedSize,
        ne_eq] at hquiet ⊢ <;>
      split_ifs with h <;>
      simp_all [hne rh.m_inode] <;> omega

theorem C19_onNotify_quiet_tick_witness :
    (RotateHandler.onNotify 0
      { statRes := some { st_ino := 7, st_size := 20 }, fopenRes := none }
      watchingHandler).1.m_inode = 7 :=
  (C19_onNotify_quiet_tick 0
    { statRes := some { st_ino := 7, st_size := 20 }, fopenRes := none }
    watchingHandler (by decide)).2.1

/-- C20: from the state `init` sets with a callback (last inode `INO_NONE`, last size -1),
the first tick on a path whose `stat` succeeds with a real inode calls `fopen`, whatever the
size, and calls the callback once with the handle when `fopen` succeeds; the first tick on a
path whose `stat` fails calls nothing and leaves the last observed pair at `(INO_NONE, 0)`. -/
theorem C20_onNotify_first_tick (INO_NONE : Nat) (path : String) (arg func : Nat)
    (env : NotifyEnv) :
    (RotateHandler.init INO_NONE path arg (some func)).m_inode = INO_NONE ∧
    (RotateHandler.init INO_NONE path arg (some func)).m_fsize = -1 ∧
    (∀ buf, env.statRes = some buf → buf.st_ino ≠ INO_NONE →
      RotateEvent.fopen path ∈
        (RotateHandler.onNotify INO_NONE env
          (RotateHandler.init INO_NONE path arg (some func))).2 ∧
      ∀ file, env.fopenRes = some file →
        callbackCalls (RotateHandler.onNotify INO_NONE env
          (RotateHandler.init INO_NONE path arg (some func))).2 = [file]) ∧
    (env.statRes = none →
      (RotateHandler.onNotify INO_NONE env
        (RotateHandler.init INO_NONE path arg (some func))).2 = [] ∧
      (RotateHandler.onNotify INO_NONE env
        (RotateHandler.init INO_NONE path arg (some func))).1.m_inode = INO_NONE ∧
      (RotateHandler.onNotify INO_NONE env
        (RotateHandler.init INO_NONE path arg (some func))).1.m_fsize = 0) := by
  obtain ⟨statRes, fopenRes⟩ := env
  refine ⟨rfl, rfl, ?_, ?_⟩
  · intro buf hs hreal
    simp only at hs
    subst hs
    have hreal2 : ¬ INO_NONE = buf.st_ino := fun e => hreal e.symm
    cases fopenRes <;>
      simp [RotateHandler.onNotify, RotateHandler.init, callbackCalls, hreal2]
  · intro hs
    simp only at hs
    subst hs
    simp [RotateHandler.onNotify, RotateHandler.init]

theorem C20_onNotify_first_tick_witness :
    callbackCalls (RotateHandler.onNotify 0
      { statRes := some { st_ino := 7, st_size := 0 }, fopenRes := some { fd := 5, pos := 0 } }
      (RotateHandler.init 0 "/tmp/a.log" 1 (some 2))).2 = [{ fd := 5, pos := 0 }] :=
  ((C20_onNotify_first_tick 0 "/tmp/a.log" 1 2
    { statRes := some { st_ino := 7, st_size := 0 },
      fopenRes := some { fd := 5, pos := 0 } }).2.2.1
    { st_ino := 7, st_size := 0 } rfl (by decide)).2 { fd := 5, pos := 0 } rfl

/-! ## Coordination client: refreshing the session -/

/-- C21: `refreshConnection` calls `connect()` exactly when the handle is NULL or
`zoo_state` of the handle is not `ZOK` (0); `connect()` closes the handle there is and asks
`zookeeper_init` for a new one. So on a handle in the connected state, which is not 0, a
refresh closes the session and creates it again, and the client holds the new handle. When
`refreshConnection` returns false, `refresh` calls none of `refreshBrokerUrls`,
`refreshWatchers` and `refreshLogConfig`, and both caches are as `refreshConnection` found
them. -/
theorem C21_refreshConnection_reconnects (cenv : ConnEnv) (env : ZkEnv) (wenv : WatchEnv)
    (z : Zookeeper) :
    (ZkCall.zookeeper_init z.m_zk_urls ∈ (z.refreshConnection cenv).2.2
      ↔ (z.m_zhandle = none ∨ cenv.zoo_state z.m_zhandle ≠ ZOK)) ∧
    ((z.m_zhandle = none ∨ cenv.zoo_state z.m_zhandle ≠ ZOK) →
      (z.refreshConnection cenv).2.2 = (z.connect cenv).2.2 ∧
      (z.refreshConnection cenv).1 = (z.connect cenv).1) ∧
    (¬ (z.m_zhandle = none ∨ cenv.zoo_state z.m_zhandle ≠ ZOK) →
      z.refreshConnection cenv = (true, z, [])) ∧
    (z.connect cenv).2.2
      = (z.m_zhandle.toList.map ZkCall.zookeeper_close) ++ [ZkCall.zookeeper_init z.m_zk_urls] ∧
    (z.connect cenv).2.1.m_zhandle = cenv.zookeeper_init ∧
    ((z.connect cenv).1 = true ↔ cenv.zookeeper_init ≠ none) ∧
    ZOO_CONNECTED_STATE ≠ ZOK ∧
    (∀ h, z.m_zhandle = some h → cenv.zoo_state (some h) = ZOO_CONNECTED_STATE →
      (z.refreshConnection cenv).2.2
        = [ZkCall.zookeeper_close h, ZkCall.zookeeper_init z.m_zk_urls] ∧
      (z.refreshConnection cenv).2.1.m_zhandle = cenv.zookeeper_init) ∧
    ((z.refreshConnection cenv).1 = false →
      ZkCall.refreshBrokerUrls ∉ (z.refresh cenv env wenv).2 ∧
      ZkCall.refreshWatchers ∉ (z.refresh cenv env wenv).2 ∧
      ZkCall.refreshLogConfig ∉ (z.refresh cenv env wenv).2 ∧
      (z.refresh cenv env wenv).2 = (z.refreshConnection cenv).2.2 ∧
      (z.refresh cenv env wenv).1.getBrokerUrls = z.getBrokerUrls ∧
      (z.refresh cenv env wenv).1.getLogConfig = z.getLogConfig) ∧
    ((z.refreshConnection cenv).1 = true →
      (z.refresh cenv env wenv).2 = (z.refreshConnection cenv).2.2 ++
        [ZkCall.refreshBrokerUrls, ZkCall.refreshWatchers, ZkCall.refreshLogConfig]) := by
  obtain ⟨zh, urls, cpath, clpath, lc, bu⟩ := z
  obtain ⟨zoo_state, zinit⟩ := cenv
  have hconn : ZOO_CONNECTED_STATE ≠ ZOK := by decide
  have hsym : ∀ a : Int, (¬ ZOK = a) ↔ ¬ a = ZOK :=
    fun a => ⟨fun h e => h e.symm, fun h e => h e.symm⟩
  refine ⟨?_, ?_, ?_, ?_, ?_, ?_, hconn, ?_, ?_, ?_⟩
  · simp only [Zookeeper.refreshConnection, ne_eq, hsym]
    by_cases hc : (zh = none ∨ ¬ zoo_state zh = ZOK)
    · rw [if_pos hc]
      cases zinit <;> simp [Zookeeper.connect, hc]
    · rw [if_neg hc]
      simp [hc]
  · intro hc
    simp only [Zookeeper.refreshConnection, ne_eq, hsym]
    rw [if_pos hc]
    cases zinit <;> simp [Zookeeper.connect]
  · intro hc
    simp only [Zookeeper.refreshConnection, ne_eq, hsym]
    rw [if_neg hc]
  · cases zh <;> cases zinit <;> simp [Zookeeper.connect]
  · cases zinit <;> simp [Zookeeper.connect]
  · cases zinit <;> simp [Zookeeper.connect]
  · intro h hz hst
    simp only at hz hst
    subst hz
    have hne : ¬ zoo_state (some h) = ZOK := by rw [hst]; exact hconn
    cases zinit <;>
      simp [Zookeeper.refreshConnection, Zookeeper.connect, hne, hsym]
  · intro hf
    have hr : Zookeeper.refresh ⟨zoo_state, zinit⟩ env wenv ⟨zh, urls, cpath, clpath, lc, bu⟩
        = ((Zookeeper.refreshConnection ⟨zoo_state, zinit⟩ ⟨zh, urls, cpath, clpath, lc, bu⟩).2.1,
           (Zookeeper.refreshConnection ⟨zoo_state, zinit⟩
              ⟨zh, urls, cpath, clpath, lc, bu⟩).2.2) := by
      simp [Zookeeper.refresh, hf]
    rw [hr]
    simp only [Zookeeper.refreshConnection, ne_eq, hsym] at hf ⊢
    split_ifs at hf ⊢ with hc
    cases zinit <;> cases zh <;>
      simp_all [Zookeeper.connect, Zookeeper.getBrokerUrls, Zookeeper.getLogConfig]
  · intro ht
    simp [Zookeeper.refresh, ht]

theorem C21_refreshConnection_reconnects_witness :
    (Zookeeper.refreshConnection (connectedEnv (some 2)) (zkWith "h1:9092")).2.2
      = [ZkCall.zookeeper_close 1, ZkCall.zookeeper_init "127.0.0.1:2181"] ∧
    (Zookeeper.refreshConnection (connectedEnv (some 2)) (zkWith "h1:9092")).2.1.m_zhandle
      = some 2 :=
  (C21_refreshConnection_reconnects (connectedEnv (some 2)) (brokersEnv ["0"]) okWatchEnv
    (zkWith "h1:9092")).2.2.2.2.2.2.2.1 1 rfl rfl

end logkafka
